import Mathlib

/-!
Verification of the discursis repository's three utility scripts:
the notebook validator (validate_notebooks.py), the upload-demo snippet
(notebooks/demo.py) and the server-extension hook (bokeh_server.py).
The Python code is embedded shallowly: external collaborators (the file
system, the nbformat library, pandas) are an explicit environment, and
observable side effects (printed lines, exit status, file-handle and
process events) are returned as explicit data.
-/

namespace Discursis

/-- The Python error values the scripts can raise or observe.
`validationError` is nbformat.ValidationError; every other constructor is
an error type the except clause in validate_notebooks.py does not catch. -/
inductive PyError where
  | ioError (msg : String)
  | parseError (msg : String)
  | validationError (msg : String)
  | versionLookupError (msg : String)
  | indexError
  deriving DecidableEq, Repr

/-- A parsed notebook document as produced by nbformat.read: the top-level
nbformat version field, and the remaining nested content (cells, metadata),
opaque to the validator, kept as a key/value list. -/
structure Notebook where
  nbformat : Int
  body : List (String × String)
  deriving DecidableEq, Repr

/-- The external collaborators of validate_notebooks.py: the file system
(`fs path = none` means open fails, e.g. file not found or permission
denied), nbformat.read with nbformat.NO_CONVERT (may fail with a parse
error), and nbformat.validate at a given version (may fail with a
validation error, or with another error such as a version-lookup failure). -/
structure Env where
  fs : String → Option String
  read_no_convert : String → Except PyError Notebook
  nbformat_validate : Notebook → Int → Except PyError Unit

/-- File-handle events observed while a script runs. -/
inductive HandleEvent where
  | opened
  | closed
  deriving DecidableEq, Repr

/-- Python's `with open(path) as file_in: body` statement: if the open
fails the error propagates and no handle is acquired; otherwise the handle
is acquired, the body runs, and the handle is released on every exit from
the block, including an exception raised by the body. -/
def withOpen {α : Type} (env : Env) (path : String)
    (body : String → Except PyError α) : Except PyError α × List HandleEvent :=
  match env.fs path with
  | none => (Except.error (PyError.ioError (path ++ ": No such file or directory")), [])
  | some content => (body content, [HandleEvent.opened, HandleEvent.closed])

/-- is_notebook_valid from validate_notebooks.py, instrumented with its
file-handle event trace: open the file in a with block, parse it via
nbformat.read with NO_CONVERT, then (after the with block) take the
version from the document's top-level nbformat field and run
nbformat.validate at exactly that version. -/
def is_notebook_valid_run (env : Env) (path : String) :
    Except PyError Unit × List HandleEvent :=
  match withOpen env path env.read_no_convert with
  | (Except.error e, events) => (Except.error e, events)
  | (Except.ok notebook, events) =>
      let format_version := notebook.nbformat
      (env.nbformat_validate notebook format_version, events)

/-- is_notebook_valid: the returned value only (the handle trace dropped). -/
def is_notebook_valid (env : Env) (path : String) : Except PyError Unit :=
  (is_notebook_valid_run env path).1

/-- How the validate command's process terminates: a controlled
sys.exit code, or an uncaught Python error (traceback, nonzero exit). -/
inductive ExitStatus where
  | code (n : Nat)
  | uncaught (e : PyError)
  deriving DecidableEq, Repr

/-- One run of the CLI: the lines printed to standard output, in order,
and how the process terminated. -/
structure RunResult where
  stdout : List String
  exitStatus : ExitStatus
  deriving DecidableEq, Repr

/-- The validate click command from validate_notebooks.py: call
is_notebook_valid inside a try block; on normal return print
"<filename> is valid" and sys.exit(0); on nbformat.ValidationError print
the filename and the error message (print's separator is a space) and
sys.exit(1); any other error is not caught and propagates, printing
nothing to standard output. -/
def validate (env : Env) (filename : String) : RunResult :=
  match is_notebook_valid env filename with
  | Except.ok _ => ⟨[filename ++ " is valid"], ExitStatus.code 0⟩
  | Except.error (PyError.validationError msg) =>
      ⟨[filename ++ " " ++ msg], ExitStatus.code 1⟩
  | Except.error e => ⟨[], ExitStatus.uncaught e⟩

/-- Reading the file's content as a fallible step, for stating the
spec's algorithm. -/
def read_file (env : Env) (path : String) : Except PyError String :=
  match env.fs path with
  | none => Except.error (PyError.ioError (path ++ ": No such file or directory"))
  | some content => Except.ok content

/-- The algorithm exactly as the spec words it: a single linear
sequence - read file, parse into document, read the version field from
the parsed document, invoke the schema check for that version - with no
retries, recovery or other steps. Stated from the spec's words, to be
compared with is_notebook_valid. -/
def spec_linear_sequence (env : Env) (path : String) : Except PyError Unit :=
  (read_file env path).bind (fun content =>
    (env.read_no_convert content).bind (fun notebook =>
      env.nbformat_validate notebook notebook.nbformat))

/-! Concrete test environment used by the witnesses: two files on disk,
one conforming notebook and one with a bogus cell type, mirroring the
spec's two scenarios. -/

/-- Serialized content of the spec's conforming scenario file. -/
def goodContent : String := "nbformat 4 nbformat_minor 5 cells metadata"

/-- Serialized content of the spec's violating scenario file. -/
def badContent : String := "nbformat 4 nbformat_minor 5 cells cell_type bogus metadata"

/-- The parsed conforming notebook. -/
def goodNotebook : Notebook := ⟨4, [("nbformat_minor", "5")]⟩

/-- The parsed notebook with a disallowed cell type. -/
def badNotebook : Notebook := ⟨4, [("nbformat_minor", "5"), ("cell_type", "bogus")]⟩

/-- A concrete environment: good.ipynb and bad.ipynb exist, everything
else is absent; the parser recognizes the two contents; the schema check
for version 4 rejects exactly the bogus notebook, and no other version
has a schema. -/
def demoEnv : Env :=
  ⟨fun path =>
      if path = "good.ipynb" then some goodContent
      else if path = "bad.ipynb" then some badContent
      else none,
    fun content =>
      if content = goodContent then Except.ok goodNotebook
      else if content = badContent then Except.ok badNotebook
      else Except.error (PyError.parseError "Expecting value: line 1 column 1"),
    fun nb v =>
      if v = (4 : Int) then
        if nb = badNotebook then
          Except.error (PyError.validationError "bogus is not a valid cell_type")
        else Except.ok ()
      else Except.error (PyError.versionLookupError "Cannot find appropriate version")⟩

/-- Helper: withOpen when the open fails. -/
theorem withOpen_none {α : Type} (env : Env) (path : String)
    (body : String → Except PyError α) (h : env.fs path = none) :
    withOpen env path body =
      (Except.error (PyError.ioError (path ++ ": No such file or directory")), []) := by
  unfold withOpen
  rw [h]

/-- Helper: withOpen when the open succeeds. -/
theorem withOpen_some {α : Type} (env : Env) (path content : String)
    (body : String → Except PyError α) (h : env.fs path = some content) :
    withOpen env path body =
      (body content, [HandleEvent.opened, HandleEvent.closed]) := by
  unfold withOpen
  rw [h]

/-- C1: a file whose content parses and conforms to the schema for its
declared format-version makes validate print "<filename> is valid" as its
only output and exit with code 0. -/
theorem validate_valid_file (env : Env) (filename content : String) (nb : Notebook)
    (hfs : env.fs filename = some content)
    (hread : env.read_no_convert content = Except.ok nb)
    (hval : env.nbformat_validate nb nb.nbformat = Except.ok ()) :
    validate env filename = ⟨[filename ++ " is valid"], ExitStatus.code 0⟩ := by
  simp [validate, is_notebook_valid, is_notebook_valid_run, withOpen, hfs, hread, hval]

/-- Witness for C1: the spec's good.ipynb scenario in the concrete
environment. -/
theorem validate_valid_file_witness :
    validate demoEnv "good.ipynb" = ⟨["good.ipynb is valid"], ExitStatus.code 0⟩ :=
  validate_valid_file demoEnv "good.ipynb" goodContent goodNotebook rfl rfl rfl

/-- C2: a file whose content parses but fails the schema check for its
declared format-version makes validate catch the validation error and, with
exit code 1, print the single line "<filename> <error message>" with a
non-empty error description. -/
theorem validate_invalid_file (env : Env) (filename content msg : String) (nb : Notebook)
    (hfs : env.fs filename = some content)
    (hread : env.read_no_convert content = Except.ok nb)
    (hval : env.nbformat_validate nb nb.nbformat =
      Except.error (PyError.validationError msg))
    (hmsg : msg ≠ "") :
    validate env filename = ⟨[filename ++ " " ++ msg], ExitStatus.code 1⟩ ∧
      filename ++ " " ++ msg ≠ filename := by
  constructor
  · simp [validate, is_notebook_valid, is_notebook_valid_run, withOpen, hfs, hread, hval]
  · intro h
    have hlen := congrArg String.length h
    rw [String.length_append, String.length_append] at hlen
    have hsp : (" " : String).length = 1 := rfl
    omega

/-- Witness for C2: the spec's bad.ipynb scenario in the concrete
environment. -/
theorem validate_invalid_file_witness :
    validate demoEnv "bad.ipynb" =
      ⟨["bad.ipynb" ++ " " ++ "bogus is not a valid cell_type"], ExitStatus.code 1⟩ ∧
      "bad.ipynb" ++ " " ++ "bogus is not a valid cell_type" ≠ "bad.ipynb" :=
  validate_invalid_file demoEnv "bad.ipynb" badContent
    "bogus is not a valid cell_type" badNotebook rfl rfl rfl (by decide)

/-- C3: the except clause catches only the validation error: when
is_notebook_valid fails with any other error, validate neither takes the
clean "is valid" path nor the clean exit-1 path - the error propagates
uncaught with nothing printed, and in particular the run never exits with
a controlled code, so a nonexistent file is never reported as valid. -/
theorem validate_uncaught_other_errors (env : Env) (filename : String) (e : PyError)
    (herr : is_notebook_valid env filename = Except.error e)
    (hnv : ∀ msg, e ≠ PyError.validationError msg) :
    validate env filename = ⟨[], ExitStatus.uncaught e⟩ ∧
      (∀ n, (validate env filename).exitStatus ≠ ExitStatus.code n) ∧
      (filename ++ " is valid") ∉ (validate env filename).stdout := by
  have hv : validate env filename = ⟨[], ExitStatus.uncaught e⟩ := by
    unfold validate
    rw [herr]
    cases e with
    | validationError msg => exact absurd rfl (hnv msg)
    | ioError msg => rfl
    | parseError msg => rfl
    | versionLookupError msg => rfl
    | indexError => rfl
  refine ⟨hv, ?_, ?_⟩
  · intro n
    rw [hv]
    simp
  · rw [hv]
    simp

/-- Witness for C3: a nonexistent file in the concrete environment: the
file-not-found error propagates uncaught, no controlled exit code, and no
"is valid" line. -/
theorem validate_uncaught_other_errors_witness :
    validate demoEnv "missing.ipynb" =
      ⟨[], ExitStatus.uncaught
        (PyError.ioError ("missing.ipynb" ++ ": No such file or directory"))⟩ ∧
      (∀ n, (validate demoEnv "missing.ipynb").exitStatus ≠ ExitStatus.code n) ∧
      ("missing.ipynb" ++ " is valid") ∉ (validate demoEnv "missing.ipynb").stdout :=
  validate_uncaught_other_errors demoEnv "missing.ipynb"
    (PyError.ioError ("missing.ipynb" ++ ": No such file or directory"))
    rfl (fun msg h => by simp at h)

/-- C4: is_notebook_valid is exactly the spec's single linear sequence:
read the file, parse it into a document with no version conversion, take
the version from the parsed document's top-level nbformat field, and
invoke the schema check passing exactly that version - no retries,
recovery or other steps. -/
theorem is_notebook_valid_is_linear_sequence (env : Env) (path : String) :
    is_notebook_valid env path = spec_linear_sequence env path := by
  unfold is_notebook_valid is_notebook_valid_run spec_linear_sequence read_file
  cases hfs : env.fs path with
  | none =>
    rw [withOpen_none env path _ hfs]
    simp [Except.bind]
  | some content =>
    rw [withOpen_some env path content _ hfs]
    cases hr : env.read_no_convert content with
    | error e => simp [Except.bind, hr]
    | ok nb => simp [Except.bind, hr]

/-- C5: on every execution path of is_notebook_valid - normal return,
parse failure, and an error raised while opening or reading - every file
handle that was opened has been closed again by the time the function
exits: the event trace is balanced. -/
theorem is_notebook_valid_releases_handle (env : Env) (path : String) :
    ((is_notebook_valid_run env path).2.count HandleEvent.opened =
      (is_notebook_valid_run env path).2.count HandleEvent.closed) ∧
      ((is_notebook_valid_run env path).2 = [] ∨
        (is_notebook_valid_run env path).2 = [HandleEvent.opened, HandleEvent.closed]) := by
  unfold is_notebook_valid_run
  cases hfs : env.fs path with
  | none =>
    rw [withOpen_none env path _ hfs]
    exact ⟨rfl, Or.inl rfl⟩
  | some content =>
    rw [withOpen_some env path content _ hfs]
    cases hr : env.read_no_convert content with
    | error e => exact ⟨rfl, Or.inr rfl⟩
    | ok nb => exact ⟨rfl, Or.inr rfl⟩

/-- C6: validation reads no hidden state: the outcome of validate is
determined by the file's content and the (fixed) external library
functions alone, so two runs over worlds that agree on those - in
particular two runs on the same unmodified file - produce the same exit
status and the same printed message. -/
theorem validate_deterministic (env₁ env₂ : Env) (filename : String)
    (hfs : env₁.fs filename = env₂.fs filename)
    (hread : env₁.read_no_convert = env₂.read_no_convert)
    (hval : env₁.nbformat_validate = env₂.nbformat_validate) :
    validate env₁ filename = validate env₂ filename := by
  have hrun : is_notebook_valid env₁ filename = is_notebook_valid env₂ filename := by
    unfold is_notebook_valid is_notebook_valid_run withOpen
    rw [hfs, hread, hval]
  unfold validate
  rw [hrun]

/-- Witness for C6: two invocations in the same world agree. -/
theorem validate_deterministic_witness :
    validate demoEnv "good.ipynb" = validate demoEnv "good.ipynb" :=
  validate_deterministic demoEnv demoEnv "good.ipynb" rfl rfl rfl

/-- Modelled from the spec: the format's conformant reference writer
(nbformat's own writer, which is not part of this repository). Per the
spec's round-trip property, content emitted by a conformant writer for
version V parses back (unchanged schema assumed) to a document whose
declared nbformat version is V and which passes the schema check for V. -/
def ConformantWriterOutput (env : Env) (V : Int) (content : String) : Prop :=
  ∃ notebook, env.read_no_convert content = Except.ok notebook ∧
    notebook.nbformat = V ∧
    env.nbformat_validate notebook V = Except.ok ()

/-- C7: round-trip acceptance: a file holding what the conformant
reference writer emitted for version V is read back and validated
successfully by is_notebook_valid - no validation error is raised. -/
theorem roundtrip_writer_validates (env : Env) (V : Int) (path content : String)
    (hfs : env.fs path = some content)
    (hw : ConformantWriterOutput env V content) :
    is_notebook_valid env path = Except.ok () := by
  obtain ⟨nb, hread, hver, hval⟩ := hw
  simp [is_notebook_valid, is_notebook_valid_run, withOpen, hfs, hread]
  rw [hver, hval]

/-- Witness for C7: the conforming file in the concrete environment is a
conformant writer output for version 4 and validates. -/
theorem roundtrip_writer_validates_witness :
    is_notebook_valid demoEnv "good.ipynb" = Except.ok () :=
  roundtrip_writer_validates demoEnv 4 "good.ipynb" goodContent rfl
    ⟨goodNotebook, rfl, rfl, rfl⟩

/-- C8: whenever validate terminates with a controlled exit code (the
success path, code 0, or the handled validation-failure path, code 1),
exactly one line has been printed to standard output. -/
theorem validate_exactly_one_line (env : Env) (filename : String) (n : Nat)
    (h : (validate env filename).exitStatus = ExitStatus.code n) :
    (validate env filename).stdout.length = 1 := by
  unfold validate at h ⊢
  cases hi : is_notebook_valid env filename with
  | ok u => rfl
  | error e =>
    rw [hi] at h
    cases e with
    | validationError msg => rfl
    | ioError msg => simp at h
    | parseError msg => simp at h
    | versionLookupError msg => simp at h
    | indexError => simp at h

/-- Witness for C8: both controlled paths in the concrete environment
print exactly one line. -/
theorem validate_exactly_one_line_witness :
    (validate demoEnv "bad.ipynb").stdout.length = 1 :=
  validate_exactly_one_line demoEnv "bad.ipynb" 1 (by decide)

/-! The upload-demo snippet, notebooks/demo.py. -/

/-- A tabular data structure as returned by pandas.read_excel; its content
is opaque to the snippet. -/
structure DataFrame where
  rows : List (List String)
  deriving DecidableEq, Repr

/-- One entry of a FileUpload widget's value list: the uploaded bytes. -/
structure FileInfo where
  content : List Nat
  deriving DecidableEq, Repr

/-- The external collaborator of demo.py: pandas.read_excel over the
uploaded bytes. -/
structure DemoEnv where
  read_excel : List Nat → Except PyError DataFrame

/-- read_uploaded_file from notebooks/demo.py: if the uploader's value
list does not have exactly one element, print a warning - but do not
return or abort; then index value[0] (an out-of-bounds index error when
the list is empty), print "Reading data...", and read the bytes with
pandas.read_excel. Returns the printed lines and the outcome. -/
def read_uploaded_file (env : DemoEnv) (value : List FileInfo) :
    List String × Except PyError DataFrame :=
  let warn :=
    if value.length = 1 then []
    else ["This example code only works for a single uploaded file"]
  match value with
  | [] => (warn, Except.error PyError.indexError)
  | file_info :: _ =>
      (warn ++ ["Reading data..."], env.read_excel file_info.content)

/-- C9: with an empty value list, read_uploaded_file prints the
single-file warning but still evaluates value[0]: the call ends in an
out-of-bounds index error, never reaching the "Reading data..." print,
rather than returning a result or a clean diagnostic. -/
theorem read_uploaded_file_empty_indexes (env : DemoEnv) :
    read_uploaded_file env [] =
      (["This example code only works for a single uploaded file"],
        Except.error PyError.indexError) := by
  rfl

/-! The server-extension hook, bokeh_server.py. -/

/-- Observable process events: spawning a child with a command line
(subprocess.Popen) and waiting on a child. -/
inductive ProcEvent where
  | spawn (cmd : List String)
  | wait
  deriving DecidableEq, Repr

/-- _load_jupyter_server_extension from bokeh_server.py: spawn one child
process with a fixed command line and return None, without waiting on or
inspecting the child. Returns the process-event trace and the (unit)
return value. -/
def _load_jupyter_server_extension {α : Type} (serverapp : α) :
    List ProcEvent × Unit :=
  ([ProcEvent.spawn ["bokeh", "serve", "bokeh-app", "--allow-websocket-origin=*"]], ())

/-- C10: _load_jupyter_server_extension does not depend on its serverapp
argument: for any two argument values, even of different types, it
produces the identical behavior - spawning exactly the fixed bokeh
command line, never waiting on the child, and returning no value. -/
theorem load_extension_ignores_serverapp {α β : Type} (s₁ : α) (s₂ : β) :
    _load_jupyter_server_extension s₁ = _load_jupyter_server_extension s₂ ∧
      (_load_jupyter_server_extension s₁).1 =
        [ProcEvent.spawn ["bokeh", "serve", "bokeh-app", "--allow-websocket-origin=*"]] ∧
      ProcEvent.wait ∉ (_load_jupyter_server_extension s₁).1 := by
  refine ⟨rfl, rfl, ?_⟩
  simp [_load_jupyter_server_extension]

end Discursis
